import Mathlib

/-!
Shallow embedding of the resource-reporting agent in `worker_mobile.py` and
`workers.py` (repository muri7hikelvin/newnet).

Python floats are modelled as exact rationals (every arithmetic step the code
performs on the values of interest — multiplication by 1.5, division, rounding
to two decimals — is exact on the small dyadic values involved).  Python `//`
(floor division) is `Int.fdiv`; Python `round(x, 2)` (round-half-to-even) is
`pyRound2`.  Each fallible external probe (psutil call, `/proc` read,
subprocess) is an oracle field of an environment structure: `none` / an empty
list models the probe raising or yielding nothing, exactly at the granularity
of the `try`/`except` blocks in the source.
-/

/-- Python `round` to an integer: round half to even (banker's rounding). -/
def roundHalfEven (x : ℚ) : ℤ :=
  if x - (⌊x⌋ : ℚ) < 1/2 then ⌊x⌋
  else if 1/2 < x - (⌊x⌋ : ℚ) then ⌊x⌋ + 1
  else if ⌊x⌋ % 2 = 0 then ⌊x⌋ else ⌊x⌋ + 1

/-- Python `round(x, 2)`. -/
def pyRound2 (x : ℚ) : ℚ := ((roundHalfEven (x * 100) : ℤ) : ℚ) / 100

/-- Does `pat` occur at the start of `l`? (helper for Python `in` on strings). -/
def listStartsWith : List Char → List Char → Bool
  | _, [] => true
  | [], _ :: _ => false
  | a :: as, b :: bs => a = b && listStartsWith as bs

/-- Does `pat` occur as a contiguous sublist of `l`? -/
def listHasSub : List Char → List Char → Bool
  | [], pat => pat.isEmpty
  | a :: rest, pat => listStartsWith (a :: rest) pat || listHasSub rest pat

/-- Python `pat in s` for strings. -/
def strHasSub (s pat : String) : Bool := listHasSub s.data pat.data

/-- The whitespace characters Python `str.strip()` removes. -/
def isPySpace (c : Char) : Bool :=
  c = ' ' || c = '\t' || c = '\n' || c = '\r' || c = '\x0b' || c = '\x0c'

/-- Python `str.strip()`. -/
def strStrip (s : String) : String :=
  ⟨((s.data.dropWhile isPySpace).reverse.dropWhile isPySpace).reverse⟩

/-- Python `str.lower()` (the strings the agent lowercases are ASCII). -/
def strLower (s : String) : String := ⟨s.data.map Char.toLower⟩

/-- Battery record as the code returns it: `percentage`, `status`, and the
optional `source` key some branches add. -/
structure Battery where
  percentage : Int
  status : String
  source : Option String
deriving DecidableEq, Repr

/-- Oracle for `get_battery_info`'s four probe methods. -/
structure BatEnv where
  /-- Method 1, `termux-battery-status`: `some (percentage, status)` when the
  command exits 0, its stdout parses as JSON and both keys are present;
  `none` when any of that fails (timeout, nonzero exit, parse error). -/
  termux : Option (Int × String)
  /-- Method 2, `dumpsys battery`: `none` when the command fails outright;
  `some (percentage?, status, plugged)` gives the values its line-by-line
  parse produced (`percentage? = none` when no `level:` line parsed). -/
  dumpsys : Option (Option Int × String × Int)
  /-- Method 3, sysfs: the entries of `/sys/class/power_supply/` with, for
  each directory, `some (capacity, rawStatus)` when both files read and the
  capacity parses, `none` when the paths are missing or a read raises. -/
  sysfsDirs : List (String × Option (Int × String))
  /-- Method 4, the three charging-indicator paths (usb, ac, wireless) in
  order: `none` = path does not exist, `some none` = exists but reading
  raises, `some (some s)` = file content `s`. -/
  charging : List (Option (Option String))
deriving DecidableEq, Repr

/-- The `dumpsys` branch of `get_battery_info`: returns a battery record only
when a percentage was parsed, mapping `plugged`/`status` codes to a status
string exactly as lines 160-172 of `worker_mobile.py` do. -/
def dumpsysBattery (d : Option Int × String × Int) : Option Battery :=
  match d.1 with
  | none => none
  | some p =>
    let status := d.2.1
    let plugged := d.2.2
    let st :=
      if plugged > 0 then "charging"
      else if status = "2" then "charging"
      else if status = "5" then "full"
      else "discharging"
    some ⟨p, st, some "dumpsys"⟩

/-- The sysfs branch: first directory whose lowercased name contains
`battery` or `bat` and whose capacity/status files read successfully wins;
a failing read of a matching directory falls through to the next entry. -/
def sysfsScan : List (String × Option (Int × String)) → Option Battery
  | [] => none
  | (name, res) :: rest =>
    if strHasSub (strLower name) "battery" || strHasSub (strLower name) "bat" then
      match res with
      | some (cap, st) => some ⟨cap, strLower (strStrip st), some "sysfs"⟩
      | none => sysfsScan rest
    else sysfsScan rest

/-- Outcome of the method-4 loop over the charging-indicator paths. -/
inductive ChargeScan where
  | found
  | failed
  | nothing
deriving DecidableEq, Repr

/-- Walks the charging-indicator paths in order: a missing path is skipped,
a read failure aborts the whole method (the `try` wraps the loop), and a
stripped content of "1" is a hit. -/
def chargingScan : List (Option (Option String)) → ChargeScan
  | [] => .nothing
  | none :: rest => chargingScan rest
  | some none :: _ => .failed
  | some (some s) :: rest => if strStrip s = "1" then .found else chargingScan rest

/-- `get_battery_info` of `worker_mobile.py`: four methods tried in order,
with final fallback percentage 100 / status unknown. -/
def get_battery_info (b : BatEnv) : Battery :=
  match b.termux with
  | some (p, st) => ⟨p, st, none⟩
  | none =>
    match b.dumpsys.bind dumpsysBattery with
    | some bt => bt
    | none =>
      match sysfsScan b.sysfsDirs with
      | some bt => bt
      | none =>
        match chargingScan b.charging with
        | .found => ⟨100, "charging", some "charging_detect"⟩
        | _ => ⟨100, "unknown", none⟩

/-- Storage record returned by `get_storage_info`. -/
structure Storage where
  total_gb : ℚ
  free_gb : ℚ
  used_percent : ℚ
deriving DecidableEq, Repr

/-- Oracle for `get_storage_info`'s two probes. -/
structure StorEnv where
  /-- `df /data` result: `some (sizeBytes, usedBytes, availBytes, pcent)`
  when the command exits 0 and the output parses; `none` otherwise. -/
  dfRes : Option (Int × Int × Int × Int)
  /-- `psutil.disk_usage` result `(total, used, free)` in bytes, `none` when
  it raises. -/
  psutilDisk : Option (Int × Int × Int)
deriving DecidableEq, Repr

/-- `get_storage_info` of `worker_mobile.py`: `df` first, then psutil (whose
`used/total` division raises when `total = 0`, landing on the default), final
default 128/64/50. -/
def get_storage_info (s : StorEnv) : Storage :=
  match s.dfRes with
  | some (total, _, free, pcent) =>
    ⟨pyRound2 ((total : ℚ) / 1024 ^ 3), pyRound2 ((free : ℚ) / 1024 ^ 3), (pcent : ℚ)⟩
  | none =>
    match s.psutilDisk with
    | some (total, used, free) =>
      if total = 0 then ⟨128, 64, 50⟩
      else
        ⟨pyRound2 ((total : ℚ) / 1024 ^ 3), pyRound2 ((free : ℚ) / 1024 ^ 3),
          pyRound2 (((used : ℚ) / (total : ℚ)) * 100)⟩
    | none => ⟨128, 64, 50⟩

/-- Network record returned by `get_network_info`. -/
structure Network where
  connected : Bool
deriving DecidableEq, Repr

/-- Full environment oracle for one call into the collectors of
`worker_mobile.py`. -/
structure Env where
  /-- The module-level `DEVICE_ID`. -/
  deviceId : String
  /-- `psutil.cpu_percent(interval=0.5)` usage value, `none` when it raises. -/
  cpuPsutil : Option ℚ
  /-- First parsed `cpu ` line of `/proc/stat`, `none` when unreadable. -/
  procStat1 : Option (List Int)
  /-- Second sample of the same line after the 0.3s sleep. -/
  procStat2 : Option (List Int)
  /-- Parsed `/proc/meminfo` entries; `get_android_memory_info` returns the
  empty dict both when the file is unreadable and when nothing parses, so a
  read failure is the empty list. -/
  meminfo : List (String × Int)
  /-- `psutil.virtual_memory().available` in bytes, `none` when it raises. -/
  psutilAvailBytes : Option Int
  bat : BatEnv
  stor : StorEnv
  /-- Whether `socket.create_connection(("8.8.8.8", 53))` succeeds. -/
  netConnect : Bool
  /-- `os.cpu_count()` (`None` possible). -/
  cpuCount : Option Nat
  /-- `getprop ro.build.version.release`: `none` = the call raises,
  `some none` = nonzero exit status, `some (some s)` = stdout `s`. -/
  getpropVersion : Option (Option String)
  /-- `getprop ro.product.model`, same encoding. -/
  getpropModel : Option (Option String)
  /-- `time.time()`. -/
  clock : ℚ
deriving DecidableEq, Repr

/-- Dictionary lookup on the parsed meminfo entries. -/
def lookupMem (m : List (String × Int)) (k : String) : Option Int :=
  List.lookup k m

/-- `get_cpu_free` of `worker_mobile.py`: psutil first, then the two-sample
`/proc/stat` delta; 50.0 whenever anything fails or the delta is not
positive.  A sample with fewer than five fields raises `IndexError`, caught
by the outer handler. -/
def get_cpu_free (e : Env) : ℚ :=
  match e.cpuPsutil with
  | some usage => pyRound2 (100 - usage)
  | none =>
    match e.procStat1 with
    | none => 50
    | some t1 =>
      match e.procStat2 with
      | none => 50
      | some t2 =>
        if 5 ≤ t1.length ∧ 5 ≤ t2.length then
          let prevIdle := t1.getD 3 0 + t1.getD 4 0
          let prevTotal := t1.sum
          let idle := t2.getD 3 0 + t2.getD 4 0
          let total := t2.sum
          let totalDelta := total - prevTotal
          let idleDelta := idle - prevIdle
          if totalDelta > 0 then
            pyRound2 (100 - 100 * (1 - (idleDelta : ℚ) / (totalDelta : ℚ)))
          else 50
        else 50

/-- `get_ram_free_mb` of `worker_mobile.py`: `/proc/meminfo` first
(`MemAvailable`, else the `MemFree+Cached+Buffers` sum); psutil only when
the meminfo dict came back empty; `0` when psutil raises too. -/
def get_ram_free_mb (e : Env) : Int :=
  if e.meminfo.isEmpty then
    match e.psutilAvailBytes with
    | some b => b.fdiv (1024 * 1024)
    | none => 0
  else
    match lookupMem e.meminfo "MemAvailable" with
    | some v => v.fdiv 1024
    | none =>
      ((lookupMem e.meminfo "MemFree").getD 0 + (lookupMem e.meminfo "Cached").getD 0 +
        (lookupMem e.meminfo "Buffers").getD 0).fdiv 1024

/-- `get_network_info`. -/
def get_network_info (e : Env) : Network := ⟨e.netConnect⟩

/-- Device record returned by `get_device_info`. -/
structure Device where
  platform : String
  cpu_count : Nat
  device_id : String
  total_ram_mb : Int
  android_version : Option String
  model : Option String
deriving DecidableEq, Repr

/-- `get_device_info` of `worker_mobile.py`.  `os.cpu_count() or 8` maps both
`None` and `0` to 8; a raising `getprop` yields version "unknown" while a
nonzero exit leaves the key absent. -/
def get_device_info (e : Env) : Device :=
  { platform := "android"
    cpu_count :=
      match e.cpuCount with
      | some n => if n = 0 then 8 else n
      | none => 8
    device_id := e.deviceId
    total_ram_mb :=
      match lookupMem e.meminfo "MemTotal" with
      | some v => v.fdiv 1024
      | none => 8192
    android_version :=
      match e.getpropVersion with
      | none => some "unknown"
      | some none => none
      | some (some s) => some (strStrip s)
    model :=
      match e.getpropModel with
      | some (some s) => some (strStrip s)
      | _ => none }

/-- The dictionary built by `get_resource_info` in `worker_mobile.py`. -/
structure Snapshot where
  cpu_free : ℚ
  ram_free_mb : Int
  ram_used_percent : ℚ
  total_ram_mb : Int
  battery : Battery
  storage : Storage
  network : Network
  device : Device
  timestamp : ℚ
deriving DecidableEq, Repr

/-- `get_resource_info` of `worker_mobile.py` (the snapshot builder):
`ram_used_percent = round(((total - free) / total) * 100, 2)` when
`total > 0`, else `0`. -/
def get_resource_info (e : Env) : Snapshot :=
  let cpu := get_cpu_free e
  let ramFree := get_ram_free_mb e
  let dev := get_device_info e
  let total := dev.total_ram_mb
  let usedPct : ℚ :=
    if total > 0 then pyRound2 ((((total : ℚ) - (ramFree : ℚ)) / (total : ℚ)) * 100)
    else 0
  { cpu_free := cpu
    ram_free_mb := ramFree
    ram_used_percent := usedPct
    total_ram_mb := total
    battery := get_battery_info e.bat
    storage := get_storage_info e.stor
    network := get_network_info e
    device := dev
    timestamp := e.clock }

/-- A JSON value as it appears in the agent's outbound messages. -/
inductive JVal where
  | s (v : String)
  | q (v : ℚ)
  | i (v : Int)
  | n (v : Nat)
  | bat (v : Battery)
  | stor (v : Storage)
  | net (v : Network)
  | dev (v : Device)
deriving DecidableEq, Repr

/-- An outbound wire message: the ordered key/value pairs of the Python dict
passed to `json.dumps`. -/
abbrev Msg := List (String × JVal)

/-- The `register` message of `worker_mobile.py` lines 372-383: exactly these
ten keys, in this order.  (The snapshot's `timestamp` key is not copied.) -/
def register_msg (e : Env) : Msg :=
  let info := get_resource_info e
  [("type", .s "register"), ("device_id", .s e.deviceId),
   ("cpu_free", .q info.cpu_free), ("ram_free_mb", .i info.ram_free_mb),
   ("ram_used_percent", .q info.ram_used_percent), ("total_ram_mb", .i info.total_ram_mb),
   ("battery", .bat info.battery), ("storage", .stor info.storage),
   ("network", .net info.network), ("device", .dev info.device)]

/-- The `heartbeat` message of lines 408-419: same fields under type
`heartbeat`. -/
def heartbeat_msg (e : Env) : Msg :=
  let info := get_resource_info e
  [("type", .s "heartbeat"), ("device_id", .s e.deviceId),
   ("cpu_free", .q info.cpu_free), ("ram_free_mb", .i info.ram_free_mb),
   ("ram_used_percent", .q info.ram_used_percent), ("total_ram_mb", .i info.total_ram_mb),
   ("battery", .bat info.battery), ("storage", .stor info.storage),
   ("network", .net info.network), ("device", .dev info.device)]

/-- An inbound coordinator payload, after the agent's `json.loads` attempt:
`malformed` when parsing raises (or the result is not an object, so that
`.get` raises); otherwise an object whose `type` entry, when present and a
string, is `ty`. -/
inductive Inbound where
  | malformed
  | obj (ty : Option String)
deriving DecidableEq, Repr

/-- Outcome of one awaited `websocket.recv()` under `asyncio.wait_for`. -/
inductive RecvEvent where
  | timeout
  | err
  | msg (m : Inbound)
deriving DecidableEq, Repr

/-- Oracle for one iteration of the heartbeat loop (lines 405-442). -/
structure HbIter where
  env : Env
  /-- `websocket.send` raises. -/
  sendErr : Bool
  /-- What the post-send receive window yields (consulted only when the send
  succeeded). -/
  recv : RecvEvent
deriving DecidableEq, Repr

/-- How one heartbeat iteration ends: continue to the next cadence tick, or
break out of the heartbeat loop (the `except` at line 440). -/
inductive StepOut where
  | ok
  | broke
deriving DecidableEq, Repr

/-- One iteration of the heartbeat loop: build a snapshot and send the
heartbeat (a failing send breaks); then wait for an inbound message, where a
timeout is caught and logged, a parsed object is at most matched against
`heartbeat_ack` (a no-op), and a receive error or a payload that fails
`json.loads` escapes the timeout-only handler and breaks the loop. -/
def hbStep (it : HbIter) : List Msg × StepOut :=
  if it.sendErr then ([], .broke)
  else
    match it.recv with
    | .timeout => ([heartbeat_msg it.env], .ok)
    | .err => ([heartbeat_msg it.env], .broke)
    | .msg .malformed => ([heartbeat_msg it.env], .broke)
    | .msg (.obj _) => ([heartbeat_msg it.env], .ok)

/-- Runs heartbeat iterations until one breaks; returns the messages sent and
whether the loop broke. -/
def hbRun : List HbIter → List Msg × Bool
  | [] => ([], false)
  | it :: rest =>
    match hbStep it with
    | (ms, .broke) => (ms, true)
    | (ms, .ok) =>
      let r := hbRun rest
      (ms ++ r.1, r.2)

/-- Oracle for one pass of the outer connection loop. -/
structure ConnAttempt where
  /-- `websockets.connect` succeeds. -/
  connectOk : Bool
  /-- Environment used for the registration snapshot. -/
  regEnv : Env
  /-- Sending the register message raises. -/
  regSendErr : Bool
  /-- What the 5s `registration_ack` wait yields. -/
  ackRecv : RecvEvent
  /-- Oracles for the successive heartbeat iterations. -/
  hbIters : List HbIter
deriving Repr

/-- How a connection attempt ends.  `connectFail`/`regFail` reach the outer
`except` (lines 444-448): backoff sleep, delay multiplied.  `innerBreak` is
the heartbeat loop's `break`: the attempt ends with no backoff sleep and the
outer loop reconnects immediately.  `streaming` means the observed event list
ran out with the loop still going. -/
inductive AttemptExit where
  | connectFail
  | regFail
  | innerBreak
  | streaming
deriving DecidableEq, Repr

/-- Result of one connection attempt: the messages sent over it and how it
ended. -/
structure AttemptResult where
  sent : List Msg
  exit : AttemptExit
deriving Repr

/-- One pass of the outer loop body of `worker_loop` (`worker_mobile.py`
lines 360-442): connect, send `register`, wait (≤5s) for a registration ack
— where only `asyncio.TimeoutError` is caught, so a receive error or
unparseable payload escapes to the outer handler — then reset the delay and
run the heartbeat loop. -/
def runAttempt (a : ConnAttempt) : AttemptResult :=
  if !a.connectOk then ⟨[], .connectFail⟩
  else if a.regSendErr then ⟨[], .regFail⟩
  else
    match a.ackRecv with
    | .err => ⟨[register_msg a.regEnv], .regFail⟩
    | .msg .malformed => ⟨[register_msg a.regEnv], .regFail⟩
    | _ =>
      let r := hbRun a.hbIters
      ⟨register_msg a.regEnv :: r.1, if r.2 then .innerBreak else .streaming⟩

/-- The backoff update at line 448: `min(delay * 1.5, 60)`. -/
def stepDelay (d : ℚ) : ℚ := min (d * (3/2)) 60

/-- The outer reconnection loop, threading `reconnect_delay`.  Each processed
attempt is paired with the backoff delay slept after it (`some d` when the
outer `except` ran, `none` when the attempt ended via the heartbeat loop's
`break`, which reconnects immediately).  The delay resets to 5 at line 401,
i.e. exactly when an attempt gets past the registration/ack phase. -/
def runLoop : ℚ → List ConnAttempt → List (AttemptResult × Option ℚ)
  | _, [] => []
  | d, a :: rest =>
    let r := runAttempt a
    match r.exit with
    | .connectFail => (r, some d) :: runLoop (stepDelay d) rest
    | .regFail => (r, some d) :: runLoop (stepDelay d) rest
    | .innerBreak => (r, none) :: runLoop 5 rest
    | .streaming => [(r, none)]

/-- `get_resource_info` of `workers.py`: dummy CPU 50.0 and the
`MemAvailable` line of `/proc/meminfo` (`none` = no such line or a raise,
giving 0). -/
def workers_get_resource_info (memAvail : Option Int) : List (String × JVal) :=
  [("cpu_free", .q 50),
   ("ram_free_mb", .i (match memAvail with | some kb => kb.fdiv 1024 | none => 0))]

/-- The register message of `workers.py`. -/
def workers_register_msg (deviceId : String) (memAvail : Option Int) : Msg :=
  ("type", .s "register") :: ("device_id", .s deviceId) :: workers_get_resource_info memAvail

/-- The heartbeat message of `workers.py`. -/
def workers_heartbeat_msg (deviceId : String) (memAvail : Option Int) : Msg :=
  ("type", .s "heartbeat") :: ("device_id", .s deviceId) :: workers_get_resource_info memAvail

/-- How a `workers.py` run ends: `crashed` when an exception escaped
`worker_loop` (there is no handler, so `asyncio.run` re-raises and the
process terminates), `streaming` when the observed events ran out. -/
inductive WExit where
  | crashed
  | streaming
deriving DecidableEq, Repr

/-- The heartbeat loop of `workers.py` (lines 45-52): no exception handling,
so a failing send crashes the process. -/
def workersHb (deviceId : String) : List (Option Int × Bool) → List Msg × WExit
  | [] => ([], .streaming)
  | (mem, sendErr) :: rest =>
    if sendErr then ([], .crashed)
    else
      let r := workersHb deviceId rest
      (workers_heartbeat_msg deviceId mem :: r.1, r.2)

/-- `worker_loop` of `workers.py` (lines 33-52): connect, register once, then
heartbeat forever; any transport error at any point escapes. -/
def workers_worker_loop (deviceId : String) (connectOk : Bool) (regMem : Option Int)
    (regSendErr : Bool) (iters : List (Option Int × Bool)) : List Msg × WExit :=
  if !connectOk then ([], .crashed)
  else if regSendErr then ([], .crashed)
  else
    let r := workersHb deviceId iters
    (workers_register_msg deviceId regMem :: r.1, r.2)

/-- `roundHalfEven` never rounds a nonnegative argument below zero. -/
theorem roundHalfEven_nonneg (y : ℚ) (h : 0 ≤ y) : 0 ≤ roundHalfEven y := by
  unfold roundHalfEven
  have h0 : (0 : ℤ) ≤ ⌊y⌋ := Int.floor_nonneg.mpr h
  split_ifs <;> omega

/-- `roundHalfEven` never rounds past an integer upper bound. -/
theorem roundHalfEven_le (y : ℚ) (B : ℤ) (h : y ≤ (B : ℚ)) : roundHalfEven y ≤ B := by
  unfold roundHalfEven
  have hfl : ⌊y⌋ ≤ B := by
    have h1 := Int.floor_le_floor h
    simpa using h1
  have hfl2 : (⌊y⌋ : ℚ) ≤ y := Int.floor_le y
  split_ifs with h1 h2 h3
  · exact hfl
  · have hlt : (⌊y⌋ : ℚ) < (B : ℚ) := by linarith
    have : ⌊y⌋ < B := by exact_mod_cast hlt
    omega
  · exact hfl
  · have heq : y - (⌊y⌋ : ℚ) = 1/2 := le_antisymm (not_lt.mp h2) (not_lt.mp h1)
    have hlt : (⌊y⌋ : ℚ) < (B : ℚ) := by linarith
    have : ⌊y⌋ < B := by exact_mod_cast hlt
    omega

/-- `pyRound2` of a nonnegative value is nonnegative. -/
theorem pyRound2_nonneg (x : ℚ) (h : 0 ≤ x) : 0 ≤ pyRound2 x := by
  unfold pyRound2
  have h1 : (0 : ℤ) ≤ roundHalfEven (x * 100) := roundHalfEven_nonneg _ (by positivity)
  have h2 : (0 : ℚ) ≤ ((roundHalfEven (x * 100) : ℤ) : ℚ) := by exact_mod_cast h1
  positivity

/-- `pyRound2` of a value at most 100 is at most 100. -/
theorem pyRound2_le_100 (x : ℚ) (h : x ≤ 100) : pyRound2 x ≤ 100 := by
  unfold pyRound2
  have h1 : x * 100 ≤ ((10000 : ℤ) : ℚ) := by push_cast; linarith
  have h2 := roundHalfEven_le (x * 100) 10000 h1
  have h3 : ((roundHalfEven (x * 100) : ℤ) : ℚ) ≤ 10000 := by exact_mod_cast h2
  linarith

/-- An environment in which every strategy of every collector fails: both CPU
probes, the meminfo read, psutil's memory API, all four battery methods, both
storage probes, and the network connectivity check. -/
abbrev AllFail (e : Env) : Prop :=
  e.cpuPsutil = none ∧ e.procStat1 = none ∧ e.meminfo = [] ∧ e.psutilAvailBytes = none ∧
  e.bat.termux = none ∧ e.bat.dumpsys.bind dumpsysBattery = none ∧
  sysfsScan e.bat.sysfsDirs = none ∧ chargingScan e.bat.charging ≠ .found ∧
  e.stor.dfRes = none ∧ e.stor.psutilDisk = none ∧ e.netConnect = false

/-- A concrete all-failing environment. -/
def e0 : Env :=
  { deviceId := "w1", cpuPsutil := none, procStat1 := none, procStat2 := none,
    meminfo := [], psutilAvailBytes := none,
    bat := { termux := none, dumpsys := none, sysfsDirs := [], charging := [none, none, none] },
    stor := { dfRes := none, psutilDisk := none },
    netConnect := false, cpuCount := none, getpropVersion := none, getpropModel := none,
    clock := 0 }

/-- C1: when every strategy of every collector fails, the snapshot builder
still returns (the Lean model is a total function, mirroring that every
failure path in the code is caught) with every field present (the `Snapshot`
structure is total), and the documented fields carry exactly the documented
defaults: cpu_free 50.0, ram_free_mb 0, battery percent 100 / status unknown,
storage 128/64/50, network not connected.  Because the values are fixed
constants over the whole class of all-failing environments, repeated calls
under all-failing conditions always return these same values: determinism of
the fallback is this theorem read at two environments. -/
theorem C1_all_fail_defaults (e : Env) (h : AllFail e) :
    (get_resource_info e).cpu_free = 50 ∧
    (get_resource_info e).ram_free_mb = 0 ∧
    (get_resource_info e).battery = ⟨100, "unknown", none⟩ ∧
    (get_resource_info e).storage = ⟨128, 64, 50⟩ ∧
    (get_resource_info e).network = ⟨false⟩ := by
  obtain ⟨h1, h2, h3, h4, h5, h6, h7, h8, h9, h10, h11⟩ := h
  refine ⟨?_, ?_, ?_, ?_, ?_⟩
  · simp [get_resource_info, get_cpu_free, h1, h2]
  · simp [get_resource_info, get_ram_free_mb, h3, h4]
  · cases hc : chargingScan e.bat.charging with
    | found => exact absurd hc h8
    | failed => simp [get_resource_info, get_battery_info, h5, h6, h7, hc]
    | nothing => simp [get_resource_info, get_battery_info, h5, h6, h7, hc]
  · simp [get_resource_info, get_storage_info, h9, h10]
  · simp [get_resource_info, get_network_info, h11]

/-- Witness for C1 at the concrete all-failing environment `e0`. -/
theorem C1_all_fail_defaults_witness :
    AllFail e0 ∧
    ((get_resource_info e0).cpu_free = 50 ∧
     (get_resource_info e0).ram_free_mb = 0 ∧
     (get_resource_info e0).battery = ⟨100, "unknown", none⟩ ∧
     (get_resource_info e0).storage = ⟨128, 64, 50⟩ ∧
     (get_resource_info e0).network = ⟨false⟩) :=
  ⟨by decide, C1_all_fail_defaults e0 (by decide)⟩

/-- A concrete battery environment where the first three methods fail (the
sysfs directory matches by name but its files fail to read) and the ac
`online` flag reads "1". -/
def bC10 : BatEnv :=
  { termux := none, dumpsys := none, sysfsDirs := [("battery", none)],
    charging := [none, some (some "1"), none] }

/-- C10: when termux, dumpsys and the sysfs probe all yield nothing and the
charging-indicator probe finds an `online` flag equal to 1, the reported
battery is exactly percentage 100 / status charging (source
`charging_detect`).  The 100 figure is the fixed constant of line 224 of
`worker_mobile.py`: it is the same for every environment satisfying the
hypotheses and in particular does not depend on any actual charge level
(e.g. the unread sysfs capacity). -/
theorem C10_charging_probe_fabricates_full (b : BatEnv) (h1 : b.termux = none)
    (h2 : b.dumpsys.bind dumpsysBattery = none) (h3 : sysfsScan b.sysfsDirs = none)
    (h4 : chargingScan b.charging = .found) :
    get_battery_info b = ⟨100, "charging", some "charging_detect"⟩ := by
  simp [get_battery_info, h1, h2, h3, h4]

/-- Witness for C10 at the concrete environment `bC10`. -/
theorem C10_charging_probe_fabricates_full_witness :
    (bC10.termux = none ∧ bC10.dumpsys.bind dumpsysBattery = none ∧
     sysfsScan bC10.sysfsDirs = none ∧ chargingScan bC10.charging = .found) ∧
    get_battery_info bC10 = ⟨100, "charging", some "charging_detect"⟩ :=
  ⟨⟨rfl, rfl, by decide, by decide⟩,
   C10_charging_probe_fabricates_full bC10 rfl rfl (by decide) (by decide)⟩

/-- An environment whose meminfo read succeeds with a large `MemAvailable`
and no `MemTotal` line: the free estimate (16384 MB) exceeds the defaulted
total (8192 MB). -/
def e3 : Env :=
  { e0 with meminfo := [("MemAvailable", 16777216)] }

/-- C3 counterexample: the claim says `ram_used_percent` is always in
[0,100], but at `e3` (meminfo readable, `MemAvailable` 16777216 kB, no
`MemTotal` so the total defaults to 8192 MB) the code computes
`round((8192-16384)/8192*100, 2) = -100`, outside [0,100]. -/
theorem C3_range_cex :
    (get_resource_info e3).ram_used_percent = -100 ∧
    ¬ (0 ≤ (get_resource_info e3).ram_used_percent) := by
  have hfree : get_ram_free_mb e3 = 16384 := by decide
  have htot : (get_device_info e3).total_ram_mb = 8192 := by decide
  have h : (get_resource_info e3).ram_used_percent = -100 := by
    simp only [get_resource_info, hfree, htot]
    norm_num [pyRound2, roundHalfEven]
  exact ⟨h, by rw [h]; norm_num⟩

/-- C3 amended: `ram_used_percent` equals
`round((total - free) / total * 100, 2)` whenever the total is positive and
equals 0 when the total is 0 (both as the claim states); but its membership
in [0,100] holds only under the added hypothesis that the independently
collected free estimate is between 0 and the total — with an inconsistent
meminfo reading, free can exceed total and the percentage goes negative
(see the counterexample). -/
theorem C3_ram_used_percent_formula (e : Env) :
    ((get_resource_info e).total_ram_mb > 0 →
      (get_resource_info e).ram_used_percent =
        pyRound2 (((((get_resource_info e).total_ram_mb : ℚ) -
          ((get_resource_info e).ram_free_mb : ℚ)) /
          ((get_resource_info e).total_ram_mb : ℚ)) * 100)) ∧
    ((get_resource_info e).total_ram_mb = 0 →
      (get_resource_info e).ram_used_percent = 0) ∧
    (0 ≤ (get_resource_info e).ram_free_mb →
      (get_resource_info e).ram_free_mb ≤ (get_resource_info e).total_ram_mb →
      0 ≤ (get_resource_info e).ram_used_percent ∧
        (get_resource_info e).ram_used_percent ≤ 100) := by
  simp only [get_resource_info]
  refine ⟨?_, ?_, ?_⟩
  · intro h; rw [if_pos h]
  · intro h; rw [h]; norm_num
  · intro h0 hft
    by_cases hpos : (get_device_info e).total_ram_mb > 0
    · rw [if_pos hpos]
      have htq : (0 : ℚ) < ((get_device_info e).total_ram_mb : ℚ) := by exact_mod_cast hpos
      have hfq : ((get_ram_free_mb e : ℤ) : ℚ) ≤ ((get_device_info e).total_ram_mb : ℚ) := by
        exact_mod_cast hft
      have h0q : (0 : ℚ) ≤ ((get_ram_free_mb e : ℤ) : ℚ) := by exact_mod_cast h0
      have hx0 : (0 : ℚ) ≤
          ((((get_device_info e).total_ram_mb : ℚ) - (get_ram_free_mb e : ℤ)) /
            ((get_device_info e).total_ram_mb : ℚ)) * 100 := by
        have hnum : (0 : ℚ) ≤ ((get_device_info e).total_ram_mb : ℚ) - (get_ram_free_mb e : ℤ) := by
          linarith
        have := div_nonneg hnum (le_of_lt htq)
        linarith
      have hx100 :
          ((((get_device_info e).total_ram_mb : ℚ) - (get_ram_free_mb e : ℤ)) /
            ((get_device_info e).total_ram_mb : ℚ)) * 100 ≤ 100 := by
        have hdiv : (((get_device_info e).total_ram_mb : ℚ) - (get_ram_free_mb e : ℤ)) /
            ((get_device_info e).total_ram_mb : ℚ) ≤ 1 := by
          rw [div_le_one htq]; linarith
        nlinarith
      exact ⟨pyRound2_nonneg _ hx0, pyRound2_le_100 _ hx100⟩
    · rw [if_neg hpos]
      exact ⟨le_refl 0, by norm_num⟩

/-- Witness for C3's amended theorem at the all-failing environment `e0`
(total 8192, free 0, percentage 100). -/
theorem C3_ram_used_percent_formula_witness :
    (get_resource_info e0).total_ram_mb > 0 ∧
    (get_resource_info e0).ram_used_percent =
      pyRound2 (((((get_resource_info e0).total_ram_mb : ℚ) -
        ((get_resource_info e0).ram_free_mb : ℚ)) /
        ((get_resource_info e0).total_ram_mb : ℚ)) * 100) :=
  ⟨by decide, (C3_ram_used_percent_formula e0).1 (by decide)⟩

/-- The RAM-free strategy order as the specification words it: the OS
virtual-memory API first, then the kernel memory-info "MemAvailable" field,
then the derived free+cached+buffers sum, with default 0.  Written from the
spec's strategy table for comparison against `get_ram_free_mb`. -/
def ram_free_mb_specOrder (e : Env) : Int :=
  match e.psutilAvailBytes with
  | some b => b.fdiv (1024 * 1024)
  | none =>
    match lookupMem e.meminfo "MemAvailable" with
    | some v => v.fdiv 1024
    | none =>
      if e.meminfo.isEmpty then 0
      else
        ((lookupMem e.meminfo "MemFree").getD 0 + (lookupMem e.meminfo "Cached").getD 0 +
          (lookupMem e.meminfo "Buffers").getD 0).fdiv 1024

/-- An environment where both the OS virtual-memory API (psutil, 2048 MB
available) and the kernel meminfo interface (`MemAvailable` 1048576 kB =
1024 MB) succeed. -/
def e9 : Env :=
  { e0 with meminfo := [("MemAvailable", 1048576)], psutilAvailBytes := some 2147483648 }

/-- C9 counterexample: with both strategies succeeding, the code returns the
meminfo value (1024), not the OS virtual-memory API value (2048) that the
claimed priority order would give — psutil is not tried first. -/
theorem C9_order_cex :
    get_ram_free_mb e9 = 1024 ∧ ram_free_mb_specOrder e9 = 2048 ∧
    get_ram_free_mb e9 ≠ ram_free_mb_specOrder e9 := by
  refine ⟨by decide, by decide, by decide⟩

/-- C9 amended: the collector tries the kernel memory-info interface first —
`MemAvailable`, then the free+cached+buffers sum — and consults the OS
virtual-memory API only when the meminfo read yields nothing; 0 when that
fails too.  In particular the psutil value is irrelevant whenever meminfo is
non-empty. -/
theorem C9_ram_strategy_order (e : Env) (b1 b2 : Option Int) (v bAvail : Int) :
    (e.meminfo ≠ [] →
      get_ram_free_mb { e with psutilAvailBytes := b1 } =
        get_ram_free_mb { e with psutilAvailBytes := b2 }) ∧
    (e.meminfo ≠ [] → lookupMem e.meminfo "MemAvailable" = some v →
      get_ram_free_mb e = v.fdiv 1024) ∧
    (e.meminfo ≠ [] → lookupMem e.meminfo "MemAvailable" = none →
      get_ram_free_mb e =
        ((lookupMem e.meminfo "MemFree").getD 0 + (lookupMem e.meminfo "Cached").getD 0 +
          (lookupMem e.meminfo "Buffers").getD 0).fdiv 1024) ∧
    (e.meminfo = [] → e.psutilAvailBytes = some bAvail →
      get_ram_free_mb e = bAvail.fdiv (1024 * 1024)) ∧
    (e.meminfo = [] → e.psutilAvailBytes = none → get_ram_free_mb e = 0) := by
  refine ⟨?_, ?_, ?_, ?_, ?_⟩
  · intro h
    cases hm : e.meminfo with
    | nil => exact absurd hm h
    | cons hd tl => simp [get_ram_free_mb, hm]
  · intro h hv
    cases hm : e.meminfo with
    | nil => exact absurd hm h
    | cons hd tl =>
      rw [hm] at hv
      simp [get_ram_free_mb, hm, hv]
  · intro h hv
    cases hm : e.meminfo with
    | nil => exact absurd hm h
    | cons hd tl =>
      rw [hm] at hv
      simp [get_ram_free_mb, hm, hv]
  · intro hm hb
    simp [get_ram_free_mb, hm, hb]
  · intro hm hb
    simp [get_ram_free_mb, hm, hb]

/-- Witness for C9's amended theorem at `e9`. -/
theorem C9_ram_strategy_order_witness :
    e9.meminfo ≠ [] ∧ lookupMem e9.meminfo "MemAvailable" = some 1048576 ∧
    get_ram_free_mb e9 = (1048576 : Int).fdiv 1024 :=
  ⟨by decide, by decide,
   (C9_ram_strategy_order e9 none none 1048576 0).2.1 (by decide) (by decide)⟩

/-- A connection attempt that fails at `websockets.connect`. -/
def failA : ConnAttempt := ⟨false, e0, false, .timeout, []⟩

/-- A connection attempt that registers successfully (ack wait times out,
which resets the delay at line 401) and later breaks out of the heartbeat
loop on a failing send. -/
def okA : ConnAttempt := ⟨true, e0, false, .timeout, [⟨e0, true, .timeout⟩]⟩

theorem runAttempt_failA : runAttempt failA = ⟨[], .connectFail⟩ := rfl

theorem runAttempt_okA : runAttempt okA = ⟨[register_msg e0], .innerBreak⟩ := rfl

theorem runLoop_failA (d : ℚ) (rest : List ConnAttempt) :
    runLoop d (failA :: rest) = (⟨[], .connectFail⟩, some d) :: runLoop (stepDelay d) rest := rfl

theorem runLoop_okA (d : ℚ) (rest : List ConnAttempt) :
    runLoop d (okA :: rest) = (⟨[register_msg e0], .innerBreak⟩, none) :: runLoop 5 rest := rfl

/-- One backoff step on a capped delay value stays in closed form. -/
theorem stepDelay_pow (j : ℕ) :
    stepDelay (min (5 * (3/2 : ℚ) ^ j) 60) = min (5 * (3/2 : ℚ) ^ (j + 1)) 60 := by
  unfold stepDelay
  rcases le_total (5 * (3/2 : ℚ) ^ j) 60 with h | h
  · rw [min_eq_left h]
    have he : 5 * (3/2 : ℚ) ^ j * (3/2) = 5 * (3/2 : ℚ) ^ (j + 1) := by ring
    rw [he]
  · rw [min_eq_right h]
    have h90 : (60 : ℚ) * (3/2) = 90 := by norm_num
    rw [h90, min_eq_right (by norm_num : (60 : ℚ) ≤ 90)]
    have hbig : (60 : ℚ) ≤ 5 * (3/2 : ℚ) ^ (j + 1) := by
      have hp : (0 : ℚ) ≤ 5 * (3/2 : ℚ) ^ j := by positivity
      have h2 : 5 * (3/2 : ℚ) ^ j ≤ 5 * (3/2 : ℚ) ^ j * (3/2) := by nlinarith
      have h3 : 5 * (3/2 : ℚ) ^ j * (3/2) = 5 * (3/2 : ℚ) ^ (j + 1) := by ring
      linarith [h3 ▸ h2]
    rw [min_eq_right hbig]

/-- Closed form of the delays slept across a run of consecutive connection
failures starting from a delay already in capped closed form. -/
theorem runLoop_replicate_failA (N : ℕ) : ∀ j : ℕ,
    (runLoop (min (5 * (3/2 : ℚ) ^ j) 60) (List.replicate N failA)).map Prod.snd =
      (List.range N).map (fun k => some (min (5 * (3/2 : ℚ) ^ (j + k)) 60)) := by
  induction N with
  | zero => intro j; simp [runLoop]
  | succ n ih =>
    intro j
    rw [List.replicate_succ, runLoop_failA, stepDelay_pow, List.range_succ_eq_map]
    simp only [List.map_cons, List.map_map]
    refine congrArg₂ _ (by norm_num) ?_
    rw [ih (j + 1)]
    refine List.map_congr_left ?_
    intro k _
    simp only [Function.comp]
    have hk : j + 1 + k = j + (k + 1) := by omega
    rw [hk]

/-- C2: starting from the initial delay, a run of N consecutive transport
failures with no successful registration sleeps exactly
`min(5 * 1.5^(k-1), 60)` before the k-th retry (k = 1..N); and once an
attempt completes its registration phase (the point at which line 401 resets
the delay — registration send plus ack wait, however the wait ends short of
an exception), the delay slept after the next failure is 5 again, whatever
the delay had grown to. -/
theorem C2_backoff_policy (N : ℕ) (hN : 1 ≤ N) (d : ℚ) (rest : List ConnAttempt) :
    ((runLoop 5 (List.replicate N failA)).map Prod.snd =
      (List.range N).map (fun k => some (min (5 * (3/2 : ℚ) ^ k) 60))) ∧
    ((runLoop d (okA :: failA :: rest)).map Prod.snd).take 2 = [none, some 5] := by
  constructor
  · have h5 : min (5 * (3/2 : ℚ) ^ (0 : ℕ)) 60 = 5 := by norm_num
    have hmain := runLoop_replicate_failA N 0
    rw [h5] at hmain
    rw [hmain]
    simp
  · rw [runLoop_okA, runLoop_failA]
    rfl

/-- Witness for C2 at N = 3, starting the reset scenario from delay 45. -/
theorem C2_backoff_policy_witness :
    1 ≤ 3 ∧
    (((runLoop 5 (List.replicate 3 failA)).map Prod.snd =
      (List.range 3).map (fun k => some (min (5 * (3/2 : ℚ) ^ k) 60))) ∧
    ((runLoop 45 (okA :: failA :: [])).map Prod.snd).take 2 = [none, some 5]) :=
  ⟨by norm_num, C2_backoff_policy 3 (by norm_num) 45 []⟩

/-- A streaming iteration during which an unsolicited `ping` object arrives
in the post-heartbeat wait window. -/
def pingIter : HbIter := ⟨e0, false, .msg (.obj (some "ping"))⟩

/-- C4 counterexample: the claim requires exactly one `pong` reply to an
inbound `ping` during the streaming wait window.  In the code the wait
window only compares the parsed type against `heartbeat_ack`; at the
concrete iteration `pingIter` the messages sent are exactly the one
heartbeat, whose type is not `pong` — no pong is ever sent. -/
theorem C4_ping_pong_cex :
    hbStep pingIter = ([heartbeat_msg e0], .ok) ∧
    List.lookup "type" (heartbeat_msg e0) = some (.s "heartbeat") ∧
    List.lookup "type" (heartbeat_msg e0) ≠ some (.s "pong") := by
  refine ⟨rfl, rfl, ?_⟩
  intro h
  rw [show List.lookup "type" (heartbeat_msg e0) = some (JVal.s "heartbeat") from rfl] at h
  simp at h

/-- C4 amended: no inbound message type triggers any reply during the
streaming wait window — every message the agent sends from a heartbeat
iteration has type `heartbeat`; an inbound `ping` is ignored exactly like
every other non-`heartbeat_ack` payload (the second half of the claim, that
no other inbound type triggers a reply, does hold). -/
theorem C4_no_reply_in_wait_window (it : HbIter) (m : Msg) (hm : m ∈ (hbStep it).1) :
    List.lookup "type" m = some (.s "heartbeat") := by
  cases hs : it.sendErr with
  | true => simp [hbStep, hs] at hm
  | false =>
    cases hrecv : it.recv with
    | timeout =>
      simp only [hbStep, hs, hrecv, Bool.false_eq_true, if_false, List.mem_singleton] at hm
      subst hm; rfl
    | err =>
      simp only [hbStep, hs, hrecv, Bool.false_eq_true, if_false, List.mem_singleton] at hm
      subst hm; rfl
    | msg mi =>
      cases mi with
      | malformed =>
        simp only [hbStep, hs, hrecv, Bool.false_eq_true, if_false, List.mem_singleton] at hm
        subst hm; rfl
      | obj ty =>
        simp only [hbStep, hs, hrecv, Bool.false_eq_true, if_false, List.mem_singleton] at hm
        subst hm; rfl

/-- Witness for C4's amended theorem at the concrete ping iteration. -/
theorem C4_no_reply_in_wait_window_witness :
    heartbeat_msg e0 ∈ (hbStep pingIter).1 ∧
    List.lookup "type" (heartbeat_msg e0) = some (.s "heartbeat") := by
  have hm : heartbeat_msg e0 ∈ (hbStep pingIter).1 := by
    rw [show (hbStep pingIter).1 = [heartbeat_msg e0] from rfl]
    exact List.mem_singleton.mpr rfl
  exact ⟨hm, C4_no_reply_in_wait_window pingIter (heartbeat_msg e0) hm⟩

/-- An attempt whose registration-ack wait receives an unparseable payload. -/
def malAckAttempt : ConnAttempt := ⟨true, e0, false, .msg .malformed, []⟩

/-- An attempt that streams and then receives an unparseable payload in the
heartbeat wait window. -/
def malIterAttempt : ConnAttempt := ⟨true, e0, false, .timeout, [⟨e0, false, .msg .malformed⟩]⟩

/-- An attempt that streams and receives an object of unknown type in the
heartbeat wait window. -/
def unkIterAttempt : ConnAttempt :=
  ⟨true, e0, false, .timeout, [⟨e0, false, .msg (.obj (some "mystery"))⟩]⟩

/-- A single streaming iteration receiving an object of unknown type. -/
def unkIter : HbIter := ⟨e0, false, .msg (.obj (some "mystery"))⟩

/-- C5 counterexample: an unknown-type object is indeed ignored (the
attempt keeps streaming), but a malformed payload is not — `json.loads`
raises past the timeout-only handler, the heartbeat loop breaks
(`innerBreak`), the connection is torn down and the outer loop reconnects.
A malformed inbound message therefore does cause a state transition and a
reconnection, contradicting the claim. -/
theorem C5_malformed_cex :
    (runAttempt unkIterAttempt).exit = .streaming ∧
    (runAttempt malIterAttempt).exit = .innerBreak ∧
    runLoop 5 [malIterAttempt] =
      [(⟨[register_msg e0, heartbeat_msg e0], .innerBreak⟩, none)] :=
  ⟨rfl, rfl, rfl⟩

/-- C5 amended: an inbound object with an unknown (or any) parsed type is
ignored and the streaming loop continues in place; an unparseable payload
instead raises — in the heartbeat window it breaks the loop, and in the
registration-ack window it ends the whole attempt as a registration-phase
failure (both lead to reconnection, not to a crash). -/
theorem C5_unknown_ignored_malformed_raises (it : HbIter) (ty : Option String)
    (a : ConnAttempt) (hse : it.sendErr = false) (hc : a.connectOk = true)
    (hre : a.regSendErr = false) :
    (it.recv = .msg (.obj ty) → hbStep it = ([heartbeat_msg it.env], .ok)) ∧
    (it.recv = .msg .malformed → hbStep it = ([heartbeat_msg it.env], .broke)) ∧
    (a.ackRecv = .msg .malformed →
      runAttempt a = ⟨[register_msg a.regEnv], .regFail⟩) := by
  refine ⟨?_, ?_, ?_⟩
  · intro h; simp [hbStep, hse, h]
  · intro h; simp [hbStep, hse, h]
  · intro h; simp [runAttempt, hc, hre, h]

/-- Witness for C5's amended theorem at the concrete unknown-type iteration
and malformed-ack attempt. -/
theorem C5_unknown_ignored_malformed_raises_witness :
    unkIter.sendErr = false ∧
    ((unkIter.recv = .msg (.obj (some "mystery")) →
        hbStep unkIter = ([heartbeat_msg unkIter.env], .ok)) ∧
     (unkIter.recv = .msg .malformed →
        hbStep unkIter = ([heartbeat_msg unkIter.env], .broke)) ∧
     (malAckAttempt.ackRecv = .msg .malformed →
        runAttempt malAckAttempt = ⟨[register_msg malAckAttempt.regEnv], .regFail⟩)) :=
  ⟨rfl, C5_unknown_ignored_malformed_raises unkIter (some "mystery") malAckAttempt rfl rfl rfl⟩

/-- An attempt with a successful registration whose heartbeat send then
fails (a transport failure while STREAMING). -/
def hbFailAttempt : ConnAttempt := ⟨true, e0, false, .timeout, [⟨e0, true, .timeout⟩]⟩

/-- C6 counterexample: the claim requires every transport error in any state
to drive a BACKOFF transition.  In `worker_mobile.py` a transport failure
inside the heartbeat loop only `break`s: the attempt ends with `innerBreak`
and the outer loop reconnects immediately, with no backoff sleep (`none`,
not `some delay`).  And in `workers.py`, which has no exception handling at
all, the same fault (here a connect failure) escapes `worker_loop` and
terminates the process. -/
theorem C6_backoff_cex :
    (runAttempt hbFailAttempt).exit = .innerBreak ∧
    runLoop 60 [hbFailAttempt] = [(⟨[register_msg e0], .innerBreak⟩, none)] ∧
    (workers_worker_loop "w1" true none false [(none, true)]).2 = .crashed :=
  ⟨rfl, rfl, rfl⟩

/-- C6 amended (for `worker_mobile.py`): an error during connect or the
registration/ack phase drives the backoff transition — the loop sleeps the
current delay, multiplies it by 1.5 capped at 60, and retries; an error
inside the streaming heartbeat loop instead causes an immediate
reconnection attempt with no backoff sleep.  In both cases the loop
continues (no network fault terminates `worker_mobile.py`); `workers.py`,
in contrast, crashes on any transport error. -/
theorem C6_transport_failure_paths (d : ℚ) (a : ConnAttempt) (rest : List ConnAttempt) :
    (((runAttempt a).exit = .connectFail ∨ (runAttempt a).exit = .regFail) →
      runLoop d (a :: rest) = (runAttempt a, some d) :: runLoop (stepDelay d) rest) ∧
    ((runAttempt a).exit = .innerBreak →
      runLoop d (a :: rest) = (runAttempt a, none) :: runLoop 5 rest) := by
  constructor
  · rintro (h | h) <;> simp [runLoop, h]
  · intro h; simp [runLoop, h]

/-- Witness for C6's amended theorem at a concrete connect failure. -/
theorem C6_transport_failure_paths_witness :
    ((runAttempt failA).exit = .connectFail ∨ (runAttempt failA).exit = .regFail) ∧
    runLoop 60 (failA :: []) = (runAttempt failA, some 60) :: runLoop (stepDelay 60) [] :=
  ⟨Or.inl rfl, (C6_transport_failure_paths 60 failA []).1 (Or.inl rfl)⟩

/-- An attempt that connects and registers without error. -/
def regOkAttempt : ConnAttempt := ⟨true, e0, false, .timeout, []⟩

/-- C7 counterexample: the claim requires the register message to carry all
ResourceSnapshot fields including the timestamp.  The first message sent on
the successful attempt `regOkAttempt` is the register message built from the
all-failing environment `e0`, and it has no `timestamp` key: the code copies
every snapshot field except `timestamp` into the register payload. -/
theorem C7_register_timestamp_cex :
    (runAttempt regOkAttempt).sent.head? = some (register_msg e0) ∧
    List.lookup "timestamp" (register_msg e0) = none :=
  ⟨rfl, rfl⟩

/-- C7 amended: on every successful connection the first message sent is of
type `register` and carries `device_id` together with the snapshot fields
cpu_free, ram_free_mb, ram_used_percent, total_ram_mb, battery, storage,
network and device — but not `timestamp` — whatever the collector
environment, in particular when every strategy failed and all values are
defaults. -/
theorem C7_register_first_message (a : ConnAttempt) (hc : a.connectOk = true)
    (hre : a.regSendErr = false) :
    (runAttempt a).sent.head? = some (register_msg a.regEnv) ∧
    List.lookup "type" (register_msg a.regEnv) = some (.s "register") ∧
    List.lookup "device_id" (register_msg a.regEnv) = some (.s a.regEnv.deviceId) ∧
    (List.lookup "cpu_free" (register_msg a.regEnv)).isSome = true ∧
    (List.lookup "ram_free_mb" (register_msg a.regEnv)).isSome = true ∧
    (List.lookup "ram_used_percent" (register_msg a.regEnv)).isSome = true ∧
    (List.lookup "total_ram_mb" (register_msg a.regEnv)).isSome = true ∧
    (List.lookup "battery" (register_msg a.regEnv)).isSome = true ∧
    (List.lookup "storage" (register_msg a.regEnv)).isSome = true ∧
    (List.lookup "network" (register_msg a.regEnv)).isSome = true ∧
    (List.lookup "device" (register_msg a.regEnv)).isSome = true ∧
    List.lookup "timestamp" (register_msg a.regEnv) = none := by
  refine ⟨?_, rfl, rfl, rfl, rfl, rfl, rfl, rfl, rfl, rfl, rfl, rfl⟩
  cases hack : a.ackRecv with
  | timeout => simp [runAttempt, hc, hre, hack]
  | err => simp [runAttempt, hc, hre, hack]
  | msg mi => cases mi <;> simp [runAttempt, hc, hre, hack]

/-- Witness for C7's amended theorem at the all-defaults attempt. -/
theorem C7_register_first_message_witness :
    regOkAttempt.connectOk = true ∧ regOkAttempt.regSendErr = false ∧
    ((runAttempt regOkAttempt).sent.head? = some (register_msg e0) ∧
     List.lookup "type" (register_msg e0) = some (.s "register")) :=
  ⟨rfl, rfl, (C7_register_first_message regOkAttempt rfl rfl).1,
   (C7_register_first_message regOkAttempt rfl rfl).2.1⟩

/-- Head of the messages sent by a heartbeat loop whose first iteration's
send succeeds. -/
theorem hbRun_head (it : HbIter) (rest : List HbIter) (hse : it.sendErr = false) :
    (hbRun (it :: rest)).1.head? = some (heartbeat_msg it.env) := by
  cases hrecv : it.recv with
  | timeout => simp [hbRun, hbStep, hse, hrecv]
  | err => simp [hbRun, hbStep, hse, hrecv]
  | msg mi => cases mi <;> simp [hbRun, hbStep, hse, hrecv]

/-- C8: when the registration-ack wait times out, the attempt neither fails
nor regresses — the register message is still the first message sent, the
delay-reset point is reached (the exit is a streaming-phase exit, never a
connect or registration failure, so the timeout causes no reconnection),
and the very next message sent is the first heartbeat. -/
theorem C8_ack_timeout_not_fatal (a : ConnAttempt) (it : HbIter) (rest : List HbIter)
    (hc : a.connectOk = true) (hre : a.regSendErr = false) (hack : a.ackRecv = .timeout)
    (hits : a.hbIters = it :: rest) (hse : it.sendErr = false) :
    (runAttempt a).sent.head? = some (register_msg a.regEnv) ∧
    ((runAttempt a).sent.drop 1).head? = some (heartbeat_msg it.env) ∧
    ((runAttempt a).exit = .innerBreak ∨ (runAttempt a).exit = .streaming) := by
  have hrun : runAttempt a =
      ⟨register_msg a.regEnv :: (hbRun a.hbIters).1,
        if (hbRun a.hbIters).2 then .innerBreak else .streaming⟩ := by
    simp [runAttempt, hc, hre, hack]
  rw [hrun, hits]
  refine ⟨rfl, ?_, ?_⟩
  · simpa using hbRun_head it rest hse
  · by_cases hb2 : (hbRun (it :: rest)).2 <;> simp [hb2]

/-- The attempt of C8's witness: registration succeeds, the ack wait times
out, and the first heartbeat iteration proceeds normally. -/
def ackTimeoutAttempt : ConnAttempt := ⟨true, e0, false, .timeout, [⟨e0, false, .timeout⟩]⟩

/-- Witness for C8 at the concrete ack-timeout attempt. -/
theorem C8_ack_timeout_not_fatal_witness :
    ackTimeoutAttempt.connectOk = true ∧ ackTimeoutAttempt.regSendErr = false ∧
    ackTimeoutAttempt.ackRecv = .timeout ∧
    ((runAttempt ackTimeoutAttempt).sent.head? = some (register_msg e0) ∧
     ((runAttempt ackTimeoutAttempt).sent.drop 1).head? = some (heartbeat_msg e0) ∧
     ((runAttempt ackTimeoutAttempt).exit = .innerBreak ∨
       (runAttempt ackTimeoutAttempt).exit = .streaming)) :=
  ⟨rfl, rfl, rfl,
   C8_ack_timeout_not_fatal ackTimeoutAttempt ⟨e0, false, .timeout⟩ [] rfl rfl rfl rfl rfl⟩
